import Mathlib

/-!
Verification development for the J1939 CAN-frame decode engine
(`src/j1939decode.c`).  The C source is shallowly embedded: machine
integers become `Nat` (with explicit wrap-arounds where the C width
matters), the cJSON reference database becomes a record of lookup
functions, IEEE doubles from the database are modelled as exact
rationals, and the fallible entry point returns `Except`.
-/

namespace J1939

/-- Error outcomes of `j1939decode_to_json`: the C function returns `NULL`
after logging "J1939 database not loaded" (database pointer is `NULL`) or
"DLC cannot be greater than 8 bytes" (`dlc > 8`). -/
inductive DecodeError where
  | notInitialized
  | invalidFrame
deriving DecidableEq

/-- Suspect-parameter descriptor, the fields `extract_spn_data` reads from
the database entry: `SPNLength` (`valueint`), `Offset` (`valueint`, an
`int` in the C code), `Resolution`, `OperationalHigh`, `OperationalLow`
(`valuedouble`, modelled as exact rationals), plus the `Name` and `Units`
strings carried along in the duplicated object. -/
structure SpnDesc where
  name : String
  units : String
  spnLength : Nat
  offset : Int
  resolution : ℚ
  operationalHigh : ℚ
  operationalLow : ℚ
deriving DecidableEq

/-- Parameter-group descriptor: the `Name` string (absent or non-string
modelled as `none`) and the paired `SPNs` / `SPNStartBits` arrays, each
entry being an SPN number together with its start bit (`none` when the
start-bit slot is missing or not a number). -/
structure PgnDesc where
  name : Option String
  spns : List (Nat × Option Int)
deriving DecidableEq

/-- Loaded J1939 lookup database: the three cJSON sub-objects
`j1939db_pgns`, `j1939db_spns`, `j1939db_source_addresses`, as lookup
functions keyed by number (key-to-decimal-string formatting is a cJSON
detail that preserves the numeric key). -/
structure J1939DB where
  pgns : Nat → Option PgnDesc
  spns : Nat → Option SpnDesc
  source_addresses : Nat → Option String

/-- Value decoded for an SPN: either the converted number (`ValueDecoded`
numeric field) or the string sentinel `"Not available"`. -/
inductive DecodedValue where
  | available (v : ℚ)
  | notAvailable
deriving DecidableEq

/-- Entry built by `extract_spn_data` for one SPN: the duplicated
descriptor plus the added `StartBit`, `ValueRaw`, `ValueDecoded` and
`Valid` fields. -/
structure DecodedSpn where
  desc : SpnDesc
  startBit : Nat
  valueRaw : Nat
  valueDecoded : DecodedValue
  valid : Bool
deriving DecidableEq

/-- Decoded message assembled by `j1939decode_to_json` (its logical
structure, before JSON printing).  `pgnName` and `spns` are `none` when
the PGN was not found (the C code adds neither key then); `spns` keeps
insertion order. -/
structure DecodedMessage where
  id : Nat
  priority : Nat
  pgn : Nat
  sa : Nat
  saName : String
  dlc : Nat
  dataRaw : List Nat
  pgnName : Option String
  spns : Option (List (Nat × DecodedSpn))
  decoded : Bool
deriving DecidableEq

/-- Priority field, from `get_pri`:
`(uint8_t) ((id >> (18U + 8U)) & ((1U << 3U) - 1))`. -/
def get_pri (id : Nat) : Nat :=
  (id >>> (18 + 8)) &&& ((1 <<< 3) - 1)

/-- Parameter group number, from `get_pgn`:
`(uint32_t) ((id >> 8U) & ((1U << 18U) - 1))`. -/
def get_pgn (id : Nat) : Nat :=
  (id >>> 8) &&& ((1 <<< 18) - 1)

/-- Source address, from `get_sa`:
`(uint8_t) ((id >> 0U) & ((1U << 8U) - 1))`. -/
def get_sa (id : Nat) : Nat :=
  (id >>> 0) &&& ((1 <<< 8) - 1)

/-- Linear membership scan, from `in_array`. -/
def in_array (val : Nat) (array : List Nat) : Bool :=
  match array with
  | [] => false
  | x :: xs => if val = x then true else in_array val xs

/-- Array of all possible proprietary SPNs, from `j1939decode_to_json`:
`const uint32_t proprietary_spns[] = {2550, 2551, 3328};`. -/
def proprietary_spns : List Nat := [2550, 2551, 3328]

/-- Byte array of the 8-byte payload, from `create_byte_array`: the
little-endian bytes of the 64-bit data word
(`((uint8_t *) data)[i]` for `i = 0 .. 7`). -/
def create_byte_array (data : Nat) : List Nat :=
  (List.range 8).map fun i => (data >>> (8 * i)) % 256

/-- SPN mask, from `extract_spn_data`:
`uint64_t mask = (1U << (unsigned int) length_in_bits) - 1;`.
The shift is performed on the 32-bit literal `1U`; a variable shift count
is reduced modulo 32 by the reference platform (undefined behaviour in C
for counts of 32 or more), so the mask wraps instead of widening for
`length_in_bits >= 32`. -/
def spn_mask (length_in_bits : Nat) : Nat :=
  2 ^ (length_in_bits % 32) - 1

/-- Raw field extraction, from `extract_spn_data`:
`uint64_t value_raw = ((*data) >> start_bit) & mask;`. -/
def value_raw_of (data start_bit length_in_bits : Nat) : Nat :=
  (data >>> start_bit) &&& spn_mask length_in_bits

/-- Engineering-unit conversion and range check, from `extract_spn_data`:
`double value = value_raw * resolution + offset;` and the
`value >= operational_low && value <= operational_high` test selecting
between the numeric `ValueDecoded` with `Valid = true` and the
`"Not available"` sentinel with `Valid = false`. -/
def convert_spn_value (value_raw : Nat) (d : SpnDesc) : DecodedValue × Bool :=
  let value : ℚ := (value_raw : ℚ) * d.resolution + (d.offset : ℚ)
  if d.operationalLow ≤ value ∧ value ≤ d.operationalHigh then
    (DecodedValue.available value, true)
  else
    (DecodedValue.notAvailable, false)

/-- Per-SPN decode, from `extract_spn_data`: `none` when `get_spn_data`
finds no object for the SPN (the C function logs and returns `NULL`),
otherwise the duplicated descriptor extended with `StartBit`, `ValueRaw`,
`ValueDecoded` and `Valid`. -/
def extract_spn_data (db : J1939DB) (spn : Nat) (data : Nat)
    (start_bit : Nat) : Option DecodedSpn :=
  match db.spns spn with
  | none => none
  | some d =>
      let vr := value_raw_of data start_bit d.spnLength
      let c := convert_spn_value vr d
      some ⟨d, start_bit, vr, c.1, c.2⟩

/-- Source-address name resolution, from `get_sa_name`: the preferred
range test `sa <= 127 || sa >= 248`, inside it the reserved band
`92 <= sa <= 127`, otherwise the database lookup with `"Unknown"`
fallback; the band `128 <= sa <= 247` is Industry Group specific, and the
final branch (unreachable for an 8-bit value) yields `"Unknown"`. -/
def get_sa_name (db : J1939DB) (sa : Nat) : String :=
  if sa ≤ 127 ∨ sa ≥ 248 then
    if 92 ≤ sa ∧ sa ≤ 127 then
      "Reserved"
    else
      match db.source_addresses sa with
      | some n => n
      | none => "Unknown"
  else if 128 ≤ sa ∧ sa ≤ 247 then
    "Industry Group specific"
  else
    "Unknown"

/-- PGN name resolution, from `get_pgn_name`: the `Name` string of the PGN
entry, or `"Unknown"` when the entry or the string is absent. -/
def get_pgn_name (db : J1939DB) (pgn : Nat) : String :=
  match db.pgns pgn with
  | some pd => pd.name.getD "Unknown"
  | none => "Unknown"

/-- Treatment of one declared `(SPN, start bit)` pair inside the SPN loop
of `j1939decode_to_json`: proprietary SPNs are skipped silently; a
missing or negative start bit logs and `continue`s; otherwise
`extract_spn_data` runs and, when it returns an object, the entry keyed
by the SPN number is produced (`cJSON_AddItemToObject` with a `NULL` item
adds nothing). -/
def process_spn (db : J1939DB) (data : Nat) (p : Nat × Option Int) :
    Option (Nat × DecodedSpn) :=
  if in_array p.1 proprietary_spns then
    none
  else
    match p.2 with
    | none => none
    | some sb =>
        if sb < 0 then
          none
        else
          (extract_spn_data db p.1 data sb.toNat).map fun e => (p.1, e)

/-- Fields of the decoded message that `j1939decode_to_json` fills in
unconditionally before the PGN lookup: identifier sub-fields, the
source-address name, the DLC and the raw bytes; `pgnName` and `spns` stay
absent and the decoded flag defaults to false. -/
def decoded_base (db : J1939DB) (id dlc data : Nat) : DecodedMessage :=
  { id := id
    priority := get_pri id
    pgn := get_pgn id
    sa := get_sa id
    saName := get_sa_name db (get_sa id)
    dlc := dlc
    dataRaw := create_byte_array data
    pgnName := none
    spns := none
    decoded := false }

/-- Decode entry point, from `j1939decode_to_json`.  A `NULL`
`j1939db_json` (uninitialized lookup service) and `dlc > 8` are the two
failure exits; otherwise the message object is assembled: identifier
sub-fields, source-address name, DLC, raw bytes, then — when the PGN is
found — the PGN name, the SPN mapping built from the declared pairs, and
the decoded flag that the loop sets as soon as one `extract_spn_data`
call returns an object.  cJSON allocation failures are outside the
embedding (allocation always succeeds here); a declared `SPNs` entry that
is not an array behaves like an empty list (empty mapping, flag false). -/
def j1939decode_to_json (db? : Option J1939DB) (id : Nat) (dlc : Nat)
    (data : Nat) : Except DecodeError DecodedMessage :=
  match db? with
  | none => Except.error DecodeError.notInitialized
  | some db =>
      if dlc > 8 then
        Except.error DecodeError.invalidFrame
      else
        match db.pgns (get_pgn id) with
        | none => Except.ok (decoded_base db id dlc data)
        | some pd =>
            Except.ok
              { decoded_base db id dlc data with
                pgnName := some (get_pgn_name db (get_pgn id))
                spns := some (pd.spns.filterMap (process_spn db data))
                decoded := pd.spns.any fun p => (process_spn db data p).isSome }

/-! Helper lemmas rewriting the bit operations of the identifier fields
into division/remainder arithmetic. -/

lemma get_pri_eq (id : Nat) : get_pri id = id / 2 ^ 26 % 2 ^ 3 := by
  have h : ((1 <<< 3 : Nat) - 1) = 2 ^ 3 - 1 := by decide
  rw [get_pri, h, Nat.and_pow_two_sub_one_eq_mod, Nat.shiftRight_eq_div_pow]

lemma get_pgn_eq (id : Nat) : get_pgn id = id / 2 ^ 8 % 2 ^ 18 := by
  have h : ((1 <<< 18 : Nat) - 1) = 2 ^ 18 - 1 := by decide
  rw [get_pgn, h, Nat.and_pow_two_sub_one_eq_mod, Nat.shiftRight_eq_div_pow]

lemma get_sa_eq (id : Nat) : get_sa id = id % 2 ^ 8 := by
  have h : ((1 <<< 8 : Nat) - 1) = 2 ^ 8 - 1 := by decide
  rw [get_sa, h, Nat.and_pow_two_sub_one_eq_mod, Nat.shiftRight_eq_div_pow]
  norm_num

lemma lor_recombine (p g s : Nat) (hg : g < 2 ^ 18) (hs : s < 2 ^ 8) :
    (p <<< 26 ||| g <<< 8 ||| s) = 2 ^ 26 * p + 2 ^ 8 * g + s := by
  have hb : 2 ^ 8 * g < 2 ^ 26 := by
    calc 2 ^ 8 * g < 2 ^ 8 * 2 ^ 18 :=
          mul_lt_mul_of_pos_left hg (show 0 < 2 ^ 8 by norm_num)
      _ = 2 ^ 26 := by norm_num
  rw [Nat.shiftLeft_eq, Nat.shiftLeft_eq, Nat.mul_comm p, Nat.mul_comm g]
  rw [← Nat.mul_add_lt_is_or hb p]
  have hm : 2 ^ 26 * p + 2 ^ 8 * g = 2 ^ 8 * (2 ^ 18 * p + g) := by ring
  rw [hm, ← Nat.mul_add_lt_is_or hs (2 ^ 18 * p + g)]

/-- C4: for every 32-bit identifier the extracted priority is in [0,7],
the PGN in [0,262143], the source address in [0,255]; OR-ing
`priority <<< 26`, `pgn <<< 8` and the source address reconstructs the
low 29 bits of the identifier, and all three fields are unchanged when
the bits above bit 28 are cleared. -/
theorem c4_identifier_fields (id : Nat) (h : id < 2 ^ 32) :
    get_pri id ≤ 7 ∧ get_pgn id ≤ 262143 ∧ get_sa id ≤ 255 ∧
    (get_pri id <<< 26 ||| get_pgn id <<< 8 ||| get_sa id) = id % 2 ^ 29 ∧
    get_pri id = get_pri (id % 2 ^ 29) ∧
    get_pgn id = get_pgn (id % 2 ^ 29) ∧
    get_sa id = get_sa (id % 2 ^ 29) := by
  have e1 := get_pri_eq id
  have e2 := get_pgn_eq id
  have e3 := get_sa_eq id
  have e1' := get_pri_eq (id % 2 ^ 29)
  have e2' := get_pgn_eq (id % 2 ^ 29)
  have e3' := get_sa_eq (id % 2 ^ 29)
  have hg : get_pgn id < 2 ^ 18 := by rw [e2]; exact Nat.mod_lt _ (by norm_num)
  have hs : get_sa id < 2 ^ 8 := by rw [e3]; exact Nat.mod_lt _ (by norm_num)
  rw [lor_recombine _ _ _ hg hs]
  rw [e1, e2, e3, e1', e2', e3']
  norm_num
  omega

/-- Witness for `c4_identifier_fields` at the concrete identifier
`0x18FEF100` (a typical J1939 id). -/
theorem c4_identifier_fields_witness :
    0x18FEF100 < 2 ^ 32 ∧
    (get_pri 0x18FEF100 ≤ 7 ∧ get_pgn 0x18FEF100 ≤ 262143 ∧
     get_sa 0x18FEF100 ≤ 255 ∧
     (get_pri 0x18FEF100 <<< 26 ||| get_pgn 0x18FEF100 <<< 8 |||
       get_sa 0x18FEF100) = 0x18FEF100 % 2 ^ 29 ∧
     get_pri 0x18FEF100 = get_pri (0x18FEF100 % 2 ^ 29) ∧
     get_pgn 0x18FEF100 = get_pgn (0x18FEF100 % 2 ^ 29) ∧
     get_sa 0x18FEF100 = get_sa (0x18FEF100 % 2 ^ 29)) :=
  ⟨by norm_num, c4_identifier_fields 0x18FEF100 (by norm_num)⟩

/-- C1: the mask of the SPN field extraction is computed in 32-bit
arithmetic, so at payload `1`, start bit `0`, bit length `32` the code
yields raw value `0` (the 32-bit shift wraps and the mask collapses to
`0`), while the 64-bit-wide extraction required by the claim yields
`(1 >>> 0) &&& (2 ^ 32 - 1) = 1`. -/
theorem c1_mask_width_code_bug :
    value_raw_of 1 0 32 = 0 ∧ spn_mask 32 = 0 ∧
    ((1 : Nat) >>> 0) &&& (2 ^ 32 - 1) = 1 := by
  refine ⟨rfl, rfl, ?_⟩
  decide

/-- Example SPN descriptor used by concrete witnesses. -/
def dEx : SpnDesc :=
  { name := "Example"
    units := "rpm"
    spnLength := 16
    offset := 0
    resolution := 1
    operationalHigh := 10
    operationalLow := 0 }

/-- C2: the converted value is `raw * resolution + offset`; when it lies
in the inclusive operational range (in particular when it equals
`operationalHigh` exactly) the decoded value is the number and `Valid` is
true, otherwise the `"Not available"` sentinel with `Valid` false; and
`extract_spn_data` builds its `DecodedSpn` from exactly this conversion
of the extracted raw value. -/
theorem c2_value_conversion (raw : Nat) (d : SpnDesc) :
    ((d.operationalLow ≤ (raw : ℚ) * d.resolution + (d.offset : ℚ) ∧
      (raw : ℚ) * d.resolution + (d.offset : ℚ) ≤ d.operationalHigh) →
      convert_spn_value raw d =
        (DecodedValue.available ((raw : ℚ) * d.resolution + (d.offset : ℚ)),
         true)) ∧
    ((raw : ℚ) * d.resolution + (d.offset : ℚ) = d.operationalHigh →
      d.operationalLow ≤ d.operationalHigh →
      (convert_spn_value raw d).2 = true) ∧
    (¬(d.operationalLow ≤ (raw : ℚ) * d.resolution + (d.offset : ℚ) ∧
       (raw : ℚ) * d.resolution + (d.offset : ℚ) ≤ d.operationalHigh) →
      convert_spn_value raw d = (DecodedValue.notAvailable, false)) ∧
    (∀ (db : J1939DB) (spn data sb : Nat),
      db.spns spn = some d →
      extract_spn_data db spn data sb =
        some ⟨d, sb, value_raw_of data sb d.spnLength,
          (convert_spn_value (value_raw_of data sb d.spnLength) d).1,
          (convert_spn_value (value_raw_of data sb d.spnLength) d).2⟩) := by
  refine ⟨?_, ?_, ?_, ?_⟩
  · intro hc
    simp only [convert_spn_value, if_pos hc]
  · intro hv hlo
    have hc : d.operationalLow ≤ (raw : ℚ) * d.resolution + (d.offset : ℚ) ∧
        (raw : ℚ) * d.resolution + (d.offset : ℚ) ≤ d.operationalHigh :=
      ⟨hv ▸ hlo, hv ▸ le_refl _⟩
    simp only [convert_spn_value, if_pos hc]
  · intro hc
    simp only [convert_spn_value, if_neg hc]
  · intro db spn data sb hdb
    simp only [extract_spn_data, hdb]

/-- Witness for `c2_value_conversion`: with `dEx` (resolution 1, offset
0, range [0,10]) and raw value 10 the converted value sits exactly at the
operational high bound and is decoded as available and valid. -/
theorem c2_value_conversion_witness :
    (dEx.operationalLow ≤ (10 : ℚ) * dEx.resolution + (dEx.offset : ℚ) ∧
     (10 : ℚ) * dEx.resolution + (dEx.offset : ℚ) ≤ dEx.operationalHigh) ∧
    convert_spn_value 10 dEx =
      (DecodedValue.available ((10 : ℚ) * dEx.resolution + (dEx.offset : ℚ)),
       true) :=
  ⟨by norm_num [dEx], (c2_value_conversion 10 dEx).1 (by norm_num [dEx])⟩

/-- Example database used by concrete witnesses: every lookup misses. -/
def dbEx : J1939DB :=
  { pgns := fun _ => none
    spns := fun _ => none
    source_addresses := fun _ => none }

/-- C5: source-address resolution on 8-bit addresses follows the band
rules: [92,127] is `"Reserved"`, [128,247] is
`"Industry Group specific"`, and addresses in [0,91] or [248,255] resolve
through the database, falling back to `"Unknown"` when absent. -/
theorem c5_sa_name_bands (db : J1939DB) (sa : Nat) (h : sa < 256) :
    (92 ≤ sa ∧ sa ≤ 127 → get_sa_name db sa = "Reserved") ∧
    (128 ≤ sa ∧ sa ≤ 247 → get_sa_name db sa = "Industry Group specific") ∧
    (sa ≤ 91 ∨ 248 ≤ sa →
      (∀ n, db.source_addresses sa = some n → get_sa_name db sa = n) ∧
      (db.source_addresses sa = none → get_sa_name db sa = "Unknown")) := by
  unfold get_sa_name
  refine ⟨?_, ?_, ?_⟩
  · intro hband
    rw [if_pos (by omega), if_pos hband]
  · intro hband
    rw [if_neg (by omega), if_pos hband]
  · intro hband
    constructor
    · intro n hn
      rw [if_pos (by omega), if_neg (by omega), hn]
    · intro hn
      rw [if_pos (by omega), if_neg (by omega), hn]

/-- Witness for `c5_sa_name_bands` at addresses 92 (reserved band), 128
(industry-group band) and 0 (preferred band, missing from `dbEx`). -/
theorem c5_sa_name_bands_witness :
    get_sa_name dbEx 92 = "Reserved" ∧
    get_sa_name dbEx 128 = "Industry Group specific" ∧
    get_sa_name dbEx 0 = "Unknown" :=
  ⟨(c5_sa_name_bands dbEx 92 (by norm_num)).1 (by norm_num),
   (c5_sa_name_bands dbEx 128 (by norm_num)).2.1 (by norm_num),
   ((c5_sa_name_bands dbEx 0 (by norm_num)).2.2 (Or.inl (by norm_num))).2 rfl⟩

/-! Shape lemmas for the decode entry point, one per control path. -/

lemma decode_none_db (id dlc data : Nat) :
    j1939decode_to_json none id dlc data =
      Except.error DecodeError.notInitialized := rfl

lemma decode_dlc_gt (db : J1939DB) (id dlc data : Nat) (h : 8 < dlc) :
    j1939decode_to_json (some db) id dlc data =
      Except.error DecodeError.invalidFrame := by
  simp only [j1939decode_to_json, if_pos h]

lemma decode_pgn_none (db : J1939DB) (id dlc data : Nat) (h1 : dlc ≤ 8)
    (h2 : db.pgns (get_pgn id) = none) :
    j1939decode_to_json (some db) id dlc data =
      Except.ok (decoded_base db id dlc data) := by
  simp only [j1939decode_to_json, if_neg (by omega : ¬ 8 < dlc), h2]

lemma decode_pgn_some (db : J1939DB) (id dlc data : Nat) (pd : PgnDesc)
    (h1 : dlc ≤ 8) (h2 : db.pgns (get_pgn id) = some pd) :
    j1939decode_to_json (some db) id dlc data =
      Except.ok
        { decoded_base db id dlc data with
          pgnName := some (get_pgn_name db (get_pgn id))
          spns := some (pd.spns.filterMap (process_spn db data))
          decoded := pd.spns.any fun p => (process_spn db data p).isSome } := by
  simp only [j1939decode_to_json, if_neg (by omega : ¬ 8 < dlc), h2]

/-- C3: the decode entry point fails exactly when the lookup service is
missing (`notInitialized`) or the data-length code exceeds 8
(`invalidFrame`); in particular a DLC of 9 always fails, and with a
loaded database and `dlc ≤ 8` a `DecodedMessage` is always returned. -/
theorem c3_failure_modes (db? : Option J1939DB) (id dlc data : Nat) :
    ((∃ e, j1939decode_to_json db? id dlc data = Except.error e) ↔
      db? = none ∨ 8 < dlc) ∧
    (db? = none →
      j1939decode_to_json db? id dlc data =
        Except.error DecodeError.notInitialized) ∧
    (∀ db, db? = some db → 8 < dlc →
      j1939decode_to_json db? id dlc data =
        Except.error DecodeError.invalidFrame) ∧
    (∀ db, db? = some db → dlc ≤ 8 →
      ∃ m, j1939decode_to_json db? id dlc data = Except.ok m) := by
  have hok : ∀ db, dlc ≤ 8 →
      ∃ m, j1939decode_to_json (some db) id dlc data = Except.ok m := by
    intro db h8
    cases hp : db.pgns (get_pgn id) with
    | none => exact ⟨_, decode_pgn_none db id dlc data h8 hp⟩
    | some pd => exact ⟨_, decode_pgn_some db id dlc data pd h8 hp⟩
  refine ⟨?_, ?_, ?_, ?_⟩
  · constructor
    · rintro ⟨e, he⟩
      cases db? with
      | none => exact Or.inl rfl
      | some db =>
          by_cases h8 : 8 < dlc
          · exact Or.inr h8
          · obtain ⟨m, hm⟩ := hok db (by omega)
            rw [hm] at he
            exact absurd he (by simp)
    · rintro (h | h)
      · subst h; exact ⟨DecodeError.notInitialized, rfl⟩
      · cases db? with
        | none => exact ⟨DecodeError.notInitialized, rfl⟩
        | some db => exact ⟨DecodeError.invalidFrame, decode_dlc_gt db id dlc data h⟩
  · rintro rfl; rfl
  · rintro db rfl h8
    exact decode_dlc_gt db id dlc data h8
  · rintro db rfl h8
    exact hok db h8

/-- Witness for `c3_failure_modes` with an uninitialized service, and
again at `dlc = 9` and at `dlc = 8` with the loaded `dbEx`. -/
theorem c3_failure_modes_witness :
    j1939decode_to_json none 0 0 0 =
      Except.error DecodeError.notInitialized ∧
    j1939decode_to_json (some dbEx) 0 9 0 =
      Except.error DecodeError.invalidFrame ∧
    ∃ m, j1939decode_to_json (some dbEx) 0 8 0 = Except.ok m :=
  ⟨(c3_failure_modes none 0 0 0).2.1 rfl,
   (c3_failure_modes (some dbEx) 0 9 0).2.2.1 dbEx rfl (by norm_num),
   (c3_failure_modes (some dbEx) 0 8 0).2.2.2 dbEx rfl (by norm_num)⟩

/-- C10: any two data-length codes that pass the `dlc ≤ 8` check produce
decode results that agree on every field except the reported DLC itself:
SPN extraction and the raw byte array always use all 8 payload bytes. -/
theorem c10_dlc_noninterference (db : J1939DB) (id data d1 d2 : Nat)
    (h1 : d1 ≤ 8) (h2 : d2 ≤ 8) :
    j1939decode_to_json (some db) id d1 data =
      Except.map (fun m => { m with dlc := d1 })
        (j1939decode_to_json (some db) id d2 data) := by
  cases hp : db.pgns (get_pgn id) with
  | none =>
      rw [decode_pgn_none db id d1 data h1 hp,
        decode_pgn_none db id d2 data h2 hp]
      rfl
  | some pd =>
      rw [decode_pgn_some db id d1 data pd h1 hp,
        decode_pgn_some db id d2 data pd h2 hp]
      rfl

/-- Witness for `c10_dlc_noninterference` comparing DLC 0 with DLC 8 on
the empty database. -/
theorem c10_dlc_noninterference_witness :
    j1939decode_to_json (some dbEx) 0 0 0 =
      Except.map (fun m => { m with dlc := 0 })
        (j1939decode_to_json (some dbEx) 0 8 0) :=
  c10_dlc_noninterference dbEx 0 0 0 8 (by norm_num) (by norm_num)

/-! Helper lemmas about the per-SPN loop body. -/

lemma in_array_iff (v : Nat) (l : List Nat) : in_array v l = true ↔ v ∈ l := by
  induction l with
  | nil => simp [in_array]
  | cons x xs ih =>
      by_cases h : v = x <;> simp [in_array, h, ih]

lemma process_spn_some_fst {db : J1939DB} {data : Nat} {a : Nat × Option Int}
    {p : Nat × DecodedSpn} (h : process_spn db data a = some p) :
    p.1 = a.1 ∧ in_array a.1 proprietary_spns = false := by
  unfold process_spn at h
  by_cases hin : in_array a.1 proprietary_spns
  · simp [hin] at h
  · cases ha : a.2 with
    | none => simp [hin, ha] at h
    | some sb =>
        simp only [hin, Bool.false_eq_true, if_false, ha] at h
        by_cases hsb : sb < 0
        · simp [hsb] at h
        · simp only [hsb, if_false] at h
          obtain ⟨e, _, he⟩ := Option.map_eq_some'.1 h
          exact ⟨by rw [← he], by simpa using hin⟩

lemma process_spn_none_of_bad (db : J1939DB) (data spn : Nat) (sb : Option Int)
    (hbad : sb = none ∨ (∃ i, sb = some i ∧ i < 0) ∨ db.spns spn = none) :
    process_spn db data (spn, sb) = none := by
  rcases hbad with h | ⟨i, hi, hneg⟩ | h
  · simp [process_spn, h]
  · simp [process_spn, hi, hneg]
  · cases sb with
    | none => simp [process_spn]
    | some i => simp [process_spn, extract_spn_data, h]

/-- C6: the proprietary SPN numbers 2550, 2551 and 3328 never appear as
keys of the SPN mapping of a decoded message, whatever the frame and the
database contents. -/
theorem c6_proprietary_omitted (db : J1939DB) (id dlc data : Nat)
    (m : DecodedMessage) (l : List (Nat × DecodedSpn))
    (hm : j1939decode_to_json (some db) id dlc data = Except.ok m)
    (hl : m.spns = some l) :
    ∀ p ∈ l, p.1 ≠ 2550 ∧ p.1 ≠ 2551 ∧ p.1 ≠ 3328 := by
  by_cases h8 : 8 < dlc
  · rw [decode_dlc_gt db id dlc data h8] at hm
    exact absurd hm (by simp)
  · cases hp : db.pgns (get_pgn id) with
    | none =>
        rw [decode_pgn_none db id dlc data (by omega) hp] at hm
        simp only [Except.ok.injEq] at hm
        subst hm
        simp [decoded_base] at hl
    | some pd =>
        rw [decode_pgn_some db id dlc data pd (by omega) hp] at hm
        simp only [Except.ok.injEq] at hm
        subst hm
        simp only [Option.some.injEq] at hl
        subst hl
        intro p hpl
        obtain ⟨a, _, hfa⟩ := List.mem_filterMap.1 hpl
        obtain ⟨hfst, hnin⟩ := process_spn_some_fst hfa
        have : a.1 ∉ proprietary_spns := by
          rw [← in_array_iff, hnin]
          simp
        rw [hfst]
        simp only [proprietary_spns, List.mem_cons, List.mem_singleton] at this
        push_neg at this
        simpa using this

/-- Database used by witnesses that exercise a real decode: PGN 61444
declares SPN 190 at start bit 24 and proprietary SPN 2550 at start bit 0;
only SPN 190 has a descriptor. -/
def db190 : J1939DB :=
  { pgns := fun p =>
      if p = 61444 then some ⟨some "EEC1", [(190, some 24), (2550, some 0)]⟩
      else none
    spns := fun s => if s = 190 then some dEx else none
    source_addresses := fun _ => none }

/-- Message produced by decoding id `0x0CF00400` with payload 0 and DLC 8
against `db190`. -/
def m190 : DecodedMessage :=
  { id := 0x0CF00400
    priority := 3
    pgn := 61444
    sa := 0
    saName := "Unknown"
    dlc := 8
    dataRaw := [0, 0, 0, 0, 0, 0, 0, 0]
    pgnName := some "EEC1"
    spns := some [(190, ⟨dEx, 24, 0, DecodedValue.available 0, true⟩)]
    decoded := true }

lemma extract_db190 :
    extract_spn_data db190 190 0 24 =
      some ⟨dEx, 24, 0, DecodedValue.available 0, true⟩ := by
  have hd : db190.spns 190 = some dEx := rfl
  have hvr : value_raw_of 0 24 dEx.spnLength = 0 := rfl
  have hc : convert_spn_value 0 dEx = (DecodedValue.available 0, true) := by
    unfold convert_spn_value
    norm_num [dEx]
  simp only [extract_spn_data, hd, hvr, hc]

lemma process_db190_190 :
    process_spn db190 0 (190, some 24) =
      some (190, ⟨dEx, 24, 0, DecodedValue.available 0, true⟩) := by
  simp [process_spn, in_array, proprietary_spns, extract_db190]

lemma process_db190_2550 : process_spn db190 0 (2550, some 0) = none := by
  simp [process_spn, in_array, proprietary_spns]

lemma decode_db190 :
    j1939decode_to_json (some db190) 0x0CF00400 8 0 = Except.ok m190 := by
  have hpgn : get_pgn 0x0CF00400 = 61444 := rfl
  have hp : db190.pgns (get_pgn 0x0CF00400) =
      some ⟨some "EEC1", [(190, some 24), (2550, some 0)]⟩ := by
    rw [hpgn]; rfl
  rw [decode_pgn_some db190 0x0CF00400 8 0 _ (by norm_num) hp]
  simp only [List.filterMap_cons_some process_db190_190,
    List.filterMap_cons_none process_db190_2550, List.filterMap_nil,
    List.any_cons, List.any_nil, process_db190_190, process_db190_2550,
    Option.isSome_some, Option.isSome_none, Bool.true_or, Bool.or_false]
  rfl

/-- Witness for `c6_proprietary_omitted` on the `db190` decode, whose PGN
declares proprietary SPN 2550: the produced mapping holds only SPN 190. -/
theorem c6_proprietary_omitted_witness :
    (190 : Nat) ≠ 2550 ∧ (190 : Nat) ≠ 2551 ∧ (190 : Nat) ≠ 3328 :=
  c6_proprietary_omitted db190 0x0CF00400 8 0 m190
    [(190, ⟨dEx, 24, 0, DecodedValue.available 0, true⟩)] decode_db190 rfl
    (190, ⟨dEx, 24, 0, DecodedValue.available 0, true⟩) (by simp)

/-- Database with the PGN entry for `pgn` replaced, used to compare a
decode against the same decode with one declared SPN removed. -/
def set_pgn (db : J1939DB) (pgn : Nat) (pd : PgnDesc) : J1939DB :=
  { db with pgns := fun p => if p = pgn then some pd else db.pgns p }

/-- C7: a declared SPN whose start bit is missing or negative, or whose
descriptor is absent from the database, contributes no entry and does not
disturb the rest of the decode: the result equals the decode of the same
frame with that declaration removed, and the call still succeeds. -/
theorem c7_bad_spn_is_local (db : J1939DB) (id dlc data : Nat)
    (name : Option String) (l1 l2 : List (Nat × Option Int))
    (spn : Nat) (sb : Option Int)
    (hbad : sb = none ∨ (∃ i, sb = some i ∧ i < 0) ∨ db.spns spn = none) :
    j1939decode_to_json
        (some (set_pgn db (get_pgn id) ⟨name, l1 ++ (spn, sb) :: l2⟩))
        id dlc data =
      j1939decode_to_json
        (some (set_pgn db (get_pgn id) ⟨name, l1 ++ l2⟩)) id dlc data ∧
    (dlc ≤ 8 →
      ∃ m, j1939decode_to_json
          (some (set_pgn db (get_pgn id) ⟨name, l1 ++ (spn, sb) :: l2⟩))
          id dlc data = Except.ok m) := by
  set db1 := set_pgn db (get_pgn id) ⟨name, l1 ++ (spn, sb) :: l2⟩ with hdb1
  set db2 := set_pgn db (get_pgn id) ⟨name, l1 ++ l2⟩ with hdb2
  have hp1 : db1.pgns (get_pgn id) = some ⟨name, l1 ++ (spn, sb) :: l2⟩ := by
    simp [hdb1, set_pgn]
  have hp2 : db2.pgns (get_pgn id) = some ⟨name, l1 ++ l2⟩ := by
    simp [hdb2, set_pgn]
  have hnone : process_spn db1 data (spn, sb) = none :=
    process_spn_none_of_bad db1 data spn sb hbad
  have hprocs : process_spn db1 data = process_spn db2 data := rfl
  refine ⟨?_, ?_⟩
  · by_cases h8 : 8 < dlc
    · rw [decode_dlc_gt db1 id dlc data h8, decode_dlc_gt db2 id dlc data h8]
    · rw [decode_pgn_some db1 id dlc data _ (by omega) hp1,
        decode_pgn_some db2 id dlc data _ (by omega) hp2]
      have hbase : decoded_base db1 id dlc data = decoded_base db2 id dlc data :=
        rfl
      have hname : get_pgn_name db1 (get_pgn id) = get_pgn_name db2 (get_pgn id) := by
        simp [get_pgn_name, hp1, hp2]
      have hfm : (l1 ++ (spn, sb) :: l2).filterMap (process_spn db1 data)
          = (l1 ++ l2).filterMap (process_spn db2 data) := by
        rw [← hprocs]
        simp [List.filterMap_append, List.filterMap_cons_none hnone]
      have hany : ((l1 ++ (spn, sb) :: l2).any fun p =>
            (process_spn db1 data p).isSome)
          = ((l1 ++ l2).any fun p => (process_spn db2 data p).isSome) := by
        rw [← hprocs]
        simp [List.any_append, List.any_cons, hnone]
      rw [hbase, hname, hfm, hany]
  · intro h8
    exact ⟨_, decode_pgn_some db1 id dlc data _ h8 hp1⟩

/-- Witness for `c7_bad_spn_is_local`: a PGN declaring the single SPN 7
with a missing start bit decodes exactly like the same PGN with an empty
declaration list, and the call succeeds. -/
theorem c7_bad_spn_is_local_witness :
    (j1939decode_to_json
        (some (set_pgn dbEx (get_pgn 0) ⟨none, [(7, none)]⟩)) 0 0 0 =
      j1939decode_to_json
        (some (set_pgn dbEx (get_pgn 0) ⟨none, []⟩)) 0 0 0) ∧
    ((0 : Nat) ≤ 8 →
      ∃ m, j1939decode_to_json
          (some (set_pgn dbEx (get_pgn 0) ⟨none, [(7, none)]⟩)) 0 0 0 =
        Except.ok m) :=
  c7_bad_spn_is_local dbEx 0 0 0 none [] [] 7 none (Or.inl rfl)

lemma filterMap_ne_nil_iff_any {α β : Type} (f : α → Option β) (l : List α) :
    l.filterMap f ≠ [] ↔ l.any (fun a => (f a).isSome) = true := by
  rw [Ne, List.filterMap_eq_nil_iff, List.any_eq_true]
  constructor
  · intro h
    push_neg at h
    obtain ⟨a, ha, hfa⟩ := h
    exact ⟨a, ha, Option.isSome_iff_ne_none.2 hfa⟩
  · rintro ⟨a, ha, hfa⟩ h
    exact (Option.isSome_iff_ne_none.1 hfa) (h a ha)

/-- C8: the overall decoded flag of a returned message is true exactly
when some declared SPN of the looked-up PGN was actually produced (its
loop body returned an entry), equivalently exactly when the SPN mapping
is present and non-empty; an absent PGN, an empty declaration list or
all-skipped SPNs leave it false. -/
theorem c8_decoded_flag (db : J1939DB) (id dlc data : Nat)
    (m : DecodedMessage)
    (hm : j1939decode_to_json (some db) id dlc data = Except.ok m) :
    (m.decoded = true ↔
      ∃ pd, db.pgns (get_pgn id) = some pd ∧
        ∃ p ∈ pd.spns, (process_spn db data p).isSome = true) ∧
    (m.decoded = true ↔ ∃ l, m.spns = some l ∧ l ≠ []) := by
  by_cases h8 : 8 < dlc
  · rw [decode_dlc_gt db id dlc data h8] at hm
    exact absurd hm (by simp)
  · cases hp : db.pgns (get_pgn id) with
    | none =>
        rw [decode_pgn_none db id dlc data (by omega) hp] at hm
        simp only [Except.ok.injEq] at hm
        subst hm
        constructor
        · simp [decoded_base, hp]
        · simp [decoded_base]
    | some pd =>
        rw [decode_pgn_some db id dlc data pd (by omega) hp] at hm
        simp only [Except.ok.injEq] at hm
        subst hm
        constructor
        · rw [List.any_eq_true]
          constructor
          · rintro ⟨p, hpmem, hps⟩
            exact ⟨pd, rfl, p, hpmem, hps⟩
          · rintro ⟨pd', hpd', p, hpmem, hps⟩
            obtain rfl : pd = pd' := by injection hpd'
            exact ⟨p, hpmem, hps⟩
        · constructor
          · intro hany
            exact ⟨_, rfl, (filterMap_ne_nil_iff_any _ _).2 hany⟩
          · rintro ⟨l, hl, hne⟩
            simp only [Option.some.injEq] at hl
            subst hl
            exact (filterMap_ne_nil_iff_any _ _).1 hne

/-- Witness for `c8_decoded_flag` on the `db190` decode, where SPN 190 is
produced and the flag is true. -/
theorem c8_decoded_flag_witness :
    (m190.decoded = true ↔
      ∃ pd, db190.pgns (get_pgn 0x0CF00400) = some pd ∧
        ∃ p ∈ pd.spns, (process_spn db190 0 p).isSome = true) ∧
    (m190.decoded = true ↔ ∃ l, m190.spns = some l ∧ l ≠ []) :=
  c8_decoded_flag db190 0x0CF00400 8 0 m190 decode_db190

/-- C9: a PGN present in the database with an empty SPN declaration list
yields a message whose PGN name is set, whose SPN mapping is present but
empty, and whose decoded flag is false. -/
theorem c9_empty_spn_list (db : J1939DB) (id dlc data : Nat)
    (name : Option String) (h1 : dlc ≤ 8)
    (h2 : db.pgns (get_pgn id) = some ⟨name, []⟩) :
    ∃ m, j1939decode_to_json (some db) id dlc data = Except.ok m ∧
      m.pgnName = some (get_pgn_name db (get_pgn id)) ∧
      m.spns = some [] ∧ m.decoded = false :=
  ⟨_, decode_pgn_some db id dlc data ⟨name, []⟩ h1 h2, rfl, rfl, rfl⟩

/-- Database whose every PGN entry declares zero SPNs, for the `c9`
witness. -/
def db9 : J1939DB :=
  { pgns := fun _ => some ⟨some "Empty", []⟩
    spns := fun _ => none
    source_addresses := fun _ => none }

/-- Witness for `c9_empty_spn_list` on `db9`. -/
theorem c9_empty_spn_list_witness :
    ∃ m, j1939decode_to_json (some db9) 0 0 0 = Except.ok m ∧
      m.pgnName = some (get_pgn_name db9 (get_pgn 0)) ∧
      m.spns = some [] ∧ m.decoded = false :=
  c9_empty_spn_list db9 0 0 0 (some "Empty") (by norm_num) rfl

end J1939
